import Mathlib

/-!
Verification of the Campus Event Management mock backend
(src/backend/mock_backend.py) against its specification.

The Python module keeps three global in-memory structures, `events_db`,
`venues_db` (dictionaries keyed by identifier) and `notifications_log`
(a list), and exposes engine operations that read and mutate them.  We
embed that state as an explicit `Store` value threaded through each
operation: dictionaries become association lists, Python `int` becomes
`Int`, Python lists become `List`, and each `return` site of a handler
becomes one constructor of an outcome type.  `datetime.now()` is an
ambient input and is passed in as an explicit `now : String` argument.
-/

namespace CampusBackend

/-- `class Event(BaseModel)` of mock_backend.py. -/
structure Event where
  event_id : String
  name : String
  date : String
  time : String
  venue : String
  description : String
  max_participants : Int
  participants : List String
deriving Repr, DecidableEq

/-- One element of a `Venue.bookings` list: the dict built in `book_venue`
(`club_name`, `date`, `time_slot`, `purpose`, `expected_attendees`,
`booked_at`). -/
structure Booking where
  club_name : String
  date : String
  time_slot : String
  purpose : String
  expected_attendees : Int
  booked_at : String
deriving Repr, DecidableEq

/-- `class Venue(BaseModel)` of mock_backend.py. -/
structure Venue where
  venue_id : String
  name : String
  capacity : Int
  facilities : List String
  bookings : List Booking
deriving Repr, DecidableEq

/-- `class BookingRequest(BaseModel)` of mock_backend.py. -/
structure BookingRequest where
  club_name : String
  date : String
  time_slot : String
  purpose : String
  expected_attendees : Int
deriving Repr, DecidableEq

/-- `class NotificationRequest(BaseModel)` of mock_backend.py.
`recipient_ids` is `Optional[List[str]] = None`. -/
structure NotificationRequest where
  event_id : String
  message : String
  recipient_type : String
  recipient_ids : Option (List String)
deriving Repr, DecidableEq

/-- The dict appended to `notifications_log` in `send_notification`. -/
structure NotificationRecord where
  timestamp : String
  event_id : String
  message : String
  recipient_type : String
  recipient_count : Nat
  recipients : List String
deriving Repr, DecidableEq

/-- Lookup in a Python dict keyed by strings, embedded as an association
list (first matching key wins; seed keys are distinct). -/
def dictGet {α : Type} (db : List (String × α)) (k : String) : Option α :=
  match db with
  | [] => none
  | (k', v) :: rest => if k' = k then some v else dictGet rest k

/-- In-place mutation of the record held under key `k` of a Python dict
(the handlers mutate `events_db[event_id]` / `venues_db[venue_id]`
through the reference returned by lookup): replace the first entry whose
key is `k`. -/
def dictSet {α : Type} (db : List (String × α)) (k : String) (v : α) :
    List (String × α) :=
  match db with
  | [] => []
  | (k', v') :: rest =>
      if k' = k then (k', v) :: rest else (k', v') :: dictSet rest k v

/-- The whole mutable global state of mock_backend.py: `events_db`,
`venues_db` and `notifications_log`. -/
structure Store where
  events_db : List (String × Event)
  venues_db : List (String × Venue)
  notifications_log : List NotificationRecord
deriving Repr, DecidableEq

/-- The four `return` sites of `register_for_event` (the 404 raise and the
three handler returns, in source order). -/
inductive RegisterOutcome where
  | notFound (detail : String)
  | alreadyRegistered (message : String)
  | eventFull (message : String)
  | registered (message : String) (participants_count : Nat)
deriving Repr, DecidableEq

/-- `register_for_event(event_id, registration)` of mock_backend.py,
with the global state passed and returned explicitly. -/
def register_for_event (s : Store) (event_id student_id student_name : String) :
    RegisterOutcome × Store :=
  match dictGet s.events_db event_id with
  | none =>
      (.notFound ("Event " ++ event_id ++ " not found"), s)
  | some event =>
      if student_id ∈ event.participants then
        (.alreadyRegistered ("Student " ++ student_name ++
          " is already registered for " ++ event.name), s)
      else if (event.participants.length : Int) ≥ event.max_participants then
        (.eventFull ("Event " ++ event.name ++ " is full (max capacity: " ++
          toString event.max_participants ++ ")"), s)
      else
        let event' := { event with participants := event.participants ++ [student_id] }
        (.registered ("Successfully registered " ++ student_name ++ " for " ++ event.name)
          event'.participants.length,
         { s with events_db := dictSet s.events_db event_id event' })

/-- The three `return` sites of `unregister_from_event`. -/
inductive UnregisterOutcome where
  | notFound (detail : String)
  | notRegistered (message : String)
  | unregistered (message : String)
deriving Repr, DecidableEq

/-- `unregister_from_event(event_id, student_id)` of mock_backend.py.
Python `list.remove` deletes the first occurrence, i.e. `List.erase`. -/
def unregister_from_event (s : Store) (event_id student_id : String) :
    UnregisterOutcome × Store :=
  match dictGet s.events_db event_id with
  | none =>
      (.notFound ("Event " ++ event_id ++ " not found"), s)
  | some event =>
      if student_id ∈ event.participants then
        let event' := { event with participants := event.participants.erase student_id }
        (.unregistered ("Successfully unregistered from " ++ event.name),
         { s with events_db := dictSet s.events_db event_id event' })
      else
        (.notRegistered ("Student " ++ student_id ++ " is not registered for " ++
          event.name), s)

/-- The four `return` sites of `book_venue`. -/
inductive BookOutcome where
  | notFound (detail : String)
  | capacityExceeded (message : String)
  | slotBooked (message : String) (existing_booking : Booking)
  | booked (message : String)
deriving Repr, DecidableEq

/-- `book_venue(venue_id, booking)` of mock_backend.py; `now` stands for
`datetime.now().isoformat()`. -/
def book_venue (s : Store) (venue_id : String) (booking : BookingRequest)
    (now : String) : BookOutcome × Store :=
  match dictGet s.venues_db venue_id with
  | none =>
      (.notFound ("Venue " ++ venue_id ++ " not found"), s)
  | some venue =>
      if booking.expected_attendees > venue.capacity then
        (.capacityExceeded ("Venue capacity (" ++ toString venue.capacity ++
          ") is less than expected attendees (" ++
          toString booking.expected_attendees ++ ")"), s)
      else
        match venue.bookings.filter
            (fun b => b.date == booking.date && b.time_slot == booking.time_slot) with
        | first :: _ =>
            (.slotBooked ("Venue " ++ venue.name ++ " is already booked for " ++
              booking.date ++ " at " ++ booking.time_slot) first, s)
        | [] =>
            let new_booking : Booking :=
              { club_name := booking.club_name
                date := booking.date
                time_slot := booking.time_slot
                purpose := booking.purpose
                expected_attendees := booking.expected_attendees
                booked_at := now }
            let venue' := { venue with bookings := venue.bookings ++ [new_booking] }
            (.booked ("Successfully booked " ++ venue.name ++ " for " ++
              booking.club_name),
             { s with venues_db := dictSet s.venues_db venue_id venue' })

/-- The `return` sites of `check_venue_availability`: the 404 raise, the
time-slot branch and the whole-date branch. -/
inductive AvailOutcome where
  | notFound (detail : String)
  | slotInfo (venue_id venue_name date time_slot : String)
      (available : Bool) (existing_bookings : List Booking)
  | dateInfo (venue_id venue_name date : String)
      (available_slots : Nat) (booked_slots : Nat) (bookings : List Booking)
deriving Repr, DecidableEq

/-- `check_venue_availability(venue_id, date, time_slot)` of
mock_backend.py.  The branch guard is Python truthiness (`if time_slot:`
on an `Optional[str]`): both a missing `time_slot` and an empty string
are falsy and take the whole-date branch; only a non-empty slot string
takes the slot branch.  The handler only reads the store; the state is
threaded through unchanged because it performs no assignment. -/
def check_venue_availability (s : Store) (venue_id date : String)
    (time_slot : Option String) : AvailOutcome × Store :=
  match dictGet s.venues_db venue_id with
  | none =>
      (.notFound ("Venue " ++ venue_id ++ " not found"), s)
  | some venue =>
      let bookings_on_date := venue.bookings.filter (fun b => b.date == date)
      match time_slot with
      | some ts =>
          if ts = "" then
            (.dateInfo venue_id venue.name date 8 bookings_on_date.length
              bookings_on_date, s)
          else
            let conflicting_bookings := bookings_on_date.filter (fun b => b.time_slot == ts)
            let available := conflicting_bookings.length == 0
            (.slotInfo venue_id venue.name date ts available conflicting_bookings, s)
      | none =>
          (.dateInfo venue_id venue.name date 8 bookings_on_date.length
            bookings_on_date, s)

/-- The `return`/`raise` sites of `send_notification`: the two 400
raises, the 404 raise, the no-recipients domain failure and success. -/
inductive SendOutcome where
  | notFound (detail : String)
  | invalidArgument (detail : String)
  | noRecipients (message : String)
  | sent (message : String) (recipient_count : Nat)
deriving Repr, DecidableEq

/-- Python truthiness of `notification.recipient_ids`
(`Optional[List[str]]`): `None` and `[]` are falsy. -/
def recipientIdsFalsy : Option (List String) → Bool
  | none => true
  | some [] => true
  | some (_ :: _) => false

/-- `send_notification(notification)` of mock_backend.py; `now` stands
for `datetime.now().isoformat()`. -/
def send_notification (s : Store) (n : NotificationRequest) (now : String) :
    SendOutcome × Store :=
  let resolved : SendOutcome ⊕ List String :=
    if n.recipient_type = "all_participants" then
      match dictGet s.events_db n.event_id with
      | none => .inl (.notFound ("Event " ++ n.event_id ++ " not found"))
      | some event => .inr event.participants
    else if n.recipient_type = "specific_students" then
      if recipientIdsFalsy n.recipient_ids then
        .inl (.invalidArgument "recipient_ids required for specific_students")
      else
        .inr (n.recipient_ids.getD [])
    else if n.recipient_type = "all_students" then
      .inr ["all_students_broadcast"]
    else
      .inl (.invalidArgument "Invalid recipient_type")
  match resolved with
  | .inl err => (err, s)
  | .inr recipients =>
      if recipients.isEmpty then
        (.noRecipients "No recipients found for this notification", s)
      else
        let record : NotificationRecord :=
          { timestamp := now
            event_id := n.event_id
            message := n.message
            recipient_type := n.recipient_type
            recipient_count := recipients.length
            recipients := recipients }
        (.sent ("Notification sent to " ++ toString recipients.length ++ " recipients")
          recipients.length,
         { s with notifications_log := s.notifications_log ++ [record] })

/-- The seed `events_db` literal of mock_backend.py. -/
def seedEvents : List (String × Event) :=
  [("techfest2024",
    { event_id := "techfest2024", name := "TechFest 2024", date := "2024-03-15",
      time := "10:00-17:00", venue := "Main Auditorium",
      description := "Annual technical festival featuring coding competitions, robotics, and tech talks",
      max_participants := 500, participants := [] }),
   ("hackathon_spring",
    { event_id := "hackathon_spring", name := "Spring Hackathon 2024", date := "2024-04-20",
      time := "09:00-21:00", venue := "Computer Lab 1",
      description := "24-hour coding hackathon with prizes",
      max_participants := 100, participants := [] }),
   ("ai_workshop",
    { event_id := "ai_workshop", name := "AI & Machine Learning Workshop", date := "2024-03-25",
      time := "14:00-17:00", venue := "Seminar Hall B",
      description := "Hands-on workshop on building AI applications",
      max_participants := 50, participants := [] }),
   ("robotics_demo",
    { event_id := "robotics_demo", name := "Robotics Club Demo Day", date := "2024-04-05",
      time := "15:00-18:00", venue := "Engineering Workshop",
      description := "Showcase of student robotics projects",
      max_participants := 200, participants := [] })]

/-- The seed `venues_db` literal of mock_backend.py. -/
def seedVenues : List (String × Venue) :=
  [("aud_main",
    { venue_id := "aud_main", name := "Main Auditorium", capacity := 500,
      facilities := ["Projector", "Sound System", "AC", "Stage"], bookings := [] }),
   ("lab_cs1",
    { venue_id := "lab_cs1", name := "Computer Lab 1", capacity := 60,
      facilities := ["Computers", "Projector", "Whiteboard", "AC"], bookings := [] }),
   ("lab_cs2",
    { venue_id := "lab_cs2", name := "Computer Lab 2", capacity := 60,
      facilities := ["Computers", "Projector", "Whiteboard"], bookings := [] }),
   ("seminar_a",
    { venue_id := "seminar_a", name := "Seminar Hall A", capacity := 100,
      facilities := ["Projector", "Sound System", "AC"], bookings := [] }),
   ("seminar_b",
    { venue_id := "seminar_b", name := "Seminar Hall B", capacity := 80,
      facilities := ["Projector", "Whiteboard", "AC"], bookings := [] }),
   ("workshop",
    { venue_id := "workshop", name := "Engineering Workshop", capacity := 150,
      facilities := ["Workbenches", "Tools", "Display Boards"], bookings := [] })]

/-- The full global state at process start: the two seed dictionaries and
an empty `notifications_log`. -/
def seedStore : Store :=
  { events_db := seedEvents, venues_db := seedVenues, notifications_log := [] }

/-- One `book_venue` call with its inputs (the ambient timestamp made
explicit). -/
structure BookOp where
  venue_id : String
  request : BookingRequest
  now : String
deriving Repr, DecidableEq

/-- Run a sequence of `book_venue` calls, keeping only the evolving state. -/
def applyBooks (s : Store) : List BookOp → Store
  | [] => s
  | op :: rest => applyBooks (book_venue s op.venue_id op.request op.now).2 rest

/-- One Registration Engine call: a `register_for_event` or an
`unregister_from_event` with its inputs. -/
inductive RegOp where
  | reg (event_id student_id student_name : String)
  | unreg (event_id student_id : String)
deriving Repr, DecidableEq

/-- Apply one Registration Engine call to the state. -/
def applyRegOp (s : Store) : RegOp → Store
  | .reg eid sid nm => (register_for_event s eid sid nm).2
  | .unreg eid sid => (unregister_from_event s eid sid).2

/-- Run a sequence of Registration Engine calls, keeping only the state. -/
def applyRegOps (s : Store) : List RegOp → Store
  | [] => s
  | op :: rest => applyRegOps (applyRegOp s op) rest

/-! ### Invariant predicates and claim-language predicates -/

/-- No two elements of this venue's `bookings` share `(date, time_slot)`. -/
def VenueNoDouble (v : Venue) : Prop :=
  v.bookings.Pairwise (fun a b => ¬(a.date = b.date ∧ a.time_slot = b.time_slot))

/-- Every venue of the store satisfies `VenueNoDouble`. -/
def NoDoubleBooking (s : Store) : Prop :=
  ∀ p ∈ s.venues_db, VenueNoDouble p.2

/-- This event's participant count does not exceed `max_participants`. -/
def EventCapOK (e : Event) : Prop :=
  (e.participants.length : Int) ≤ e.max_participants

/-- Every event of the store satisfies `EventCapOK`. -/
def CapacityInv (s : Store) : Prop :=
  ∀ p ∈ s.events_db, EventCapOK p.2

/-- This event's `participants` list holds no student id twice. -/
def EventNodup (e : Event) : Prop :=
  e.participants.Nodup

/-- Every event of the store satisfies `EventNodup`. -/
def NoDupRegistration (s : Store) : Prop :=
  ∀ p ∈ s.events_db, EventNodup p.2

/-- The wording of the spec's Booking data-model sentence: every stored
booking has a positive `expected_attendees` that is at most the owning
venue's capacity (capacity is immutable in this system, so the current
capacity is the capacity at booking time). -/
def BookingPosLeCap (s : Store) : Prop :=
  ∀ p ∈ s.venues_db, ∀ b ∈ p.2.bookings,
    0 < b.expected_attendees ∧ b.expected_attendees ≤ p.2.capacity

/-- The half of `BookingPosLeCap` the code actually enforces: every
stored booking has `expected_attendees` at most the venue's capacity. -/
def BookingLeCap (s : Store) : Prop :=
  ∀ p ∈ s.venues_db, ∀ b ∈ p.2.bookings, b.expected_attendees ≤ p.2.capacity

/-- The wording of the availability-query spec sentence at one call
site: with this `time_slot` given, `check_venue_availability` takes the
slot branch, reports `available = true` exactly when the venue has no
booking matching `(date, time_slot)`, returns exactly the matching
bookings, and leaves the store unchanged. -/
def SlotQueryAnswered (s : Store) (vid d ts : String) (v : Venue) : Prop :=
  check_venue_availability s vid d (some ts) =
    (.slotInfo vid v.name d ts
      ((v.bookings.filter (fun b => b.date == d && b.time_slot == ts)).length == 0)
      (v.bookings.filter (fun b => b.date == d && b.time_slot == ts)), s)

/-- The capacity of every venue of the store, keyed by venue id.  No
engine operation ever changes it, which makes "capacity at booking time"
and current capacity interchangeable. -/
def capMap (s : Store) : List (String × Int) :=
  s.venues_db.map (fun p => (p.1, p.2.capacity))

/-- Domain failures of `register_for_event`: the `success: False` returns
(already registered, event full), as opposed to the 404 rejection and
the success return. -/
def RegisterOutcome.isDomainFailure : RegisterOutcome → Bool
  | .alreadyRegistered _ => true
  | .eventFull _ => true
  | _ => false

/-- Domain failure of `unregister_from_event`: the not-registered return. -/
def UnregisterOutcome.isDomainFailure : UnregisterOutcome → Bool
  | .notRegistered _ => true
  | _ => false

/-- Domain failures of `book_venue`: capacity exceeded and slot conflict. -/
def BookOutcome.isDomainFailure : BookOutcome → Bool
  | .capacityExceeded _ => true
  | .slotBooked _ _ => true
  | _ => false

/-- Domain failure of `send_notification`: the no-recipients return. -/
def SendOutcome.isDomainFailure : SendOutcome → Bool
  | .noRecipients _ => true
  | _ => false

/-! ### Concrete fixtures used by witnesses and counterexamples -/

/-- A booking occupying `(2024-04-20, 09:00-10:00)` in the witness store. -/
def wBooking : Booking :=
  { club_name := "Chess Club", date := "2024-04-20", time_slot := "09:00-10:00",
    purpose := "weekly meet", expected_attendees := 5, booked_at := "T0" }

/-- A witness venue with one existing booking. -/
def wVenue : Venue :=
  { venue_id := "v1", name := "Hall One", capacity := 10,
    facilities := ["Projector"], bookings := [wBooking] }

/-- A witness event that is both full and has `s1` registered. -/
def wEventFull : Event :=
  { event_id := "e1", name := "Tiny Event", date := "2024-05-01",
    time := "10:00-11:00", venue := "Hall One", description := "small",
    max_participants := 1, participants := ["s1"] }

/-- A small concrete store exercising the failure branches. -/
def wStore : Store :=
  { events_db := [("e1", wEventFull)], venues_db := [("v1", wVenue)],
    notifications_log := [] }

/-- A request for the slot `wBooking` already occupies, with attendees
above `wVenue`'s capacity. -/
def wReq70 : BookingRequest :=
  { club_name := "Robotics", date := "2024-04-20", time_slot := "09:00-10:00",
    purpose := "demo", expected_attendees := 70 }

/-- A request for the slot `wBooking` already occupies, with attendees
within `wVenue`'s capacity. -/
def wReq5 : BookingRequest :=
  { club_name := "Robotics", date := "2024-04-20", time_slot := "09:00-10:00",
    purpose := "demo", expected_attendees := 5 }

/-- A `book_venue` call with `expected_attendees = 0`, accepted by the
code because the only check is `expected_attendees > capacity`. -/
def zeroAttendeesOp : BookOp :=
  { venue_id := "aud_main",
    request := { club_name := "Chess Club", date := "2024-05-01",
                 time_slot := "09:00-10:00", purpose := "meet",
                 expected_attendees := 0 },
    now := "2024-05-01T00:00:00" }

/-! ### Association-list lemmas -/

theorem dictGet_mem {α : Type} {db : List (String × α)} {k : String} {v : α}
    (h : dictGet db k = some v) : (k, v) ∈ db := by
  induction db with
  | nil => simp [dictGet] at h
  | cons hd tl ih =>
      obtain ⟨k', v'⟩ := hd
      by_cases hk : k' = k
      · subst hk
        simp [dictGet] at h
        subst h
        exact List.mem_cons_self _ _
      · simp [dictGet, hk] at h
        exact List.mem_cons_of_mem _ (ih h)

theorem mem_dictSet {α : Type} {db : List (String × α)} {k : String} {v : α}
    {p : String × α} (h : p ∈ dictSet db k v) : p ∈ db ∨ p = (k, v) := by
  induction db with
  | nil => simp [dictSet] at h
  | cons hd tl ih =>
      obtain ⟨k', v'⟩ := hd
      by_cases hk : k' = k
      · subst hk
        simp [dictSet] at h
        rcases h with h | h
        · right; simp [h]
        · left; exact List.mem_cons_of_mem _ h
      · simp [dictSet, hk] at h
        rcases h with h | h
        · left; simp [h]
        · rcases ih h with h' | h'
          · left; exact List.mem_cons_of_mem _ h'
          · right; exact h'

/-! ### C1: no double booking -/

theorem book_venue_preserves_noDouble {s : Store} (h : NoDoubleBooking s)
    (venue_id : String) (req : BookingRequest) (now : String) :
    NoDoubleBooking (book_venue s venue_id req now).2 := by
  unfold book_venue
  cases hget : dictGet s.venues_db venue_id with
  | none => exact h
  | some venue =>
      simp only
      by_cases hcap : req.expected_attendees > venue.capacity
      · simp only [if_pos hcap]; exact h
      · simp only [if_neg hcap]
        cases hconf : venue.bookings.filter
            (fun b => b.date == req.date && b.time_slot == req.time_slot) with
        | cons first rest => exact h
        | nil =>
            intro p hp
            rcases mem_dictSet hp with hmem | heq
            · exact h p hmem
            · subst heq
              have hv : VenueNoDouble venue := h _ (dictGet_mem hget)
              unfold VenueNoDouble at hv ⊢
              simp only
              rw [List.pairwise_append]
              refine ⟨hv, List.pairwise_singleton _ _, ?_⟩
              intro a ha b hb
              simp only [List.mem_singleton] at hb
              subst hb
              have := List.filter_eq_nil_iff.mp hconf a ha
              simp only [Bool.and_eq_true, beq_iff_eq, not_and] at this
              simp only
              rintro ⟨hd, ht⟩
              exact this hd ht

theorem applyBooks_preserves_noDouble :
    ∀ (ops : List BookOp) (s : Store), NoDoubleBooking s →
      NoDoubleBooking (applyBooks s ops)
  | [], _, h => h
  | op :: rest, _, h =>
      applyBooks_preserves_noDouble rest _
        (book_venue_preserves_noDouble h op.venue_id op.request op.now)

theorem seedStore_noDouble : NoDoubleBooking seedStore := by
  intro p hp
  unfold seedStore seedVenues at hp
  simp only [List.mem_cons, List.not_mem_nil, or_false] at hp
  rcases hp with h | h | h | h | h | h <;> subst h <;> exact List.Pairwise.nil

/-- C1: in every state reachable from the seeded state by any sequence of
`book_venue` calls, no venue holds two bookings with the same
`(date, time_slot)` pair. -/
theorem C1_no_double_booking (ops : List BookOp) :
    NoDoubleBooking (applyBooks seedStore ops) :=
  applyBooks_preserves_noDouble ops seedStore seedStore_noDouble

/-! ### C2: capacity invariant, and C3: no duplicate registration -/

theorem register_preserves_cap {s : Store} (h : CapacityInv s)
    (eid sid nm : String) :
    CapacityInv (register_for_event s eid sid nm).2 := by
  unfold register_for_event
  cases hget : dictGet s.events_db eid with
  | none => exact h
  | some event =>
      simp only
      by_cases hdup : sid ∈ event.participants
      · simp only [if_pos hdup]; exact h
      · simp only [if_neg hdup]
        by_cases hfull : (event.participants.length : Int) ≥ event.max_participants
        · simp only [if_pos hfull]; exact h
        · simp only [if_neg hfull]
          intro p hp
          rcases mem_dictSet hp with hmem | heq
          · exact h p hmem
          · subst heq
            unfold EventCapOK
            simp only [List.length_append, List.length_singleton]
            push_cast
            omega

theorem unregister_preserves_cap {s : Store} (h : CapacityInv s)
    (eid sid : String) :
    CapacityInv (unregister_from_event s eid sid).2 := by
  unfold unregister_from_event
  cases hget : dictGet s.events_db eid with
  | none => exact h
  | some event =>
      simp only
      by_cases hmem' : sid ∈ event.participants
      · simp only [if_pos hmem']
        intro p hp
        rcases mem_dictSet hp with hmem | heq
        · exact h p hmem
        · subst heq
          have hev : EventCapOK event := h _ (dictGet_mem hget)
          unfold EventCapOK at hev ⊢
          simp only
          have hlen : (event.participants.erase sid).length ≤
              event.participants.length :=
            (List.erase_sublist sid event.participants).length_le
          have : ((event.participants.erase sid).length : Int) ≤
              (event.participants.length : Int) := by exact_mod_cast hlen
          omega
      · simp only [if_neg hmem']; exact h

theorem register_preserves_nodup {s : Store} (h : NoDupRegistration s)
    (eid sid nm : String) :
    NoDupRegistration (register_for_event s eid sid nm).2 := by
  unfold register_for_event
  cases hget : dictGet s.events_db eid with
  | none => exact h
  | some event =>
      simp only
      by_cases hdup : sid ∈ event.participants
      · simp only [if_pos hdup]; exact h
      · simp only [if_neg hdup]
        by_cases hfull : (event.participants.length : Int) ≥ event.max_participants
        · simp only [if_pos hfull]; exact h
        · simp only [if_neg hfull]
          intro p hp
          rcases mem_dictSet hp with hmem | heq
          · exact h p hmem
          · subst heq
            have hev : EventNodup event := h _ (dictGet_mem hget)
            unfold EventNodup at hev ⊢
            simp only [List.nodup_append, List.nodup_singleton, true_and]
            refine ⟨hev, ?_⟩
            intro a ha hb
            simp only [List.mem_singleton] at hb
            subst hb
            exact hdup ha

theorem unregister_preserves_nodup {s : Store} (h : NoDupRegistration s)
    (eid sid : String) :
    NoDupRegistration (unregister_from_event s eid sid).2 := by
  unfold unregister_from_event
  cases hget : dictGet s.events_db eid with
  | none => exact h
  | some event =>
      simp only
      by_cases hmem' : sid ∈ event.participants
      · simp only [if_pos hmem']
        intro p hp
        rcases mem_dictSet hp with hmem | heq
        · exact h p hmem
        · subst heq
          have hev : EventNodup event := h _ (dictGet_mem hget)
          exact hev.erase sid
      · simp only [if_neg hmem']; exact h

theorem applyRegOps_preserves_cap :
    ∀ (ops : List RegOp) (s : Store), CapacityInv s →
      CapacityInv (applyRegOps s ops)
  | [], _, h => h
  | op :: rest, s, h => by
      refine applyRegOps_preserves_cap rest _ ?_
      cases op with
      | reg eid sid nm => exact register_preserves_cap h eid sid nm
      | unreg eid sid => exact unregister_preserves_cap h eid sid

theorem applyRegOps_preserves_nodup :
    ∀ (ops : List RegOp) (s : Store), NoDupRegistration s →
      NoDupRegistration (applyRegOps s ops)
  | [], _, h => h
  | op :: rest, s, h => by
      refine applyRegOps_preserves_nodup rest _ ?_
      cases op with
      | reg eid sid nm => exact register_preserves_nodup h eid sid nm
      | unreg eid sid => exact unregister_preserves_nodup h eid sid

theorem seedStore_cap : CapacityInv seedStore := by
  intro p hp
  unfold seedStore seedEvents at hp
  simp only [List.mem_cons, List.not_mem_nil, or_false] at hp
  rcases hp with h | h | h | h <;> subst h <;> simp [EventCapOK]

theorem seedStore_nodup : NoDupRegistration seedStore := by
  intro p hp
  unfold seedStore seedEvents at hp
  simp only [List.mem_cons, List.not_mem_nil, or_false] at hp
  rcases hp with h | h | h | h <;> subst h <;> exact List.Pairwise.nil

/-- C2: in every state reachable from the seeded state by any sequence of
register and unregister calls, every event has at most `max_participants`
participants. -/
theorem C2_capacity_invariant (ops : List RegOp) :
    CapacityInv (applyRegOps seedStore ops) :=
  applyRegOps_preserves_cap ops seedStore seedStore_cap

/-- C3: in every state reachable from the seeded state by any sequence of
register and unregister calls, no event's `participants` list contains a
student id twice. -/
theorem C3_no_duplicate_registration (ops : List RegOp) :
    NoDupRegistration (applyRegOps seedStore ops) :=
  applyRegOps_preserves_nodup ops seedStore seedStore_nodup

theorem C1_witness : NoDoubleBooking (applyBooks seedStore [zeroAttendeesOp]) :=
  C1_no_double_booking [zeroAttendeesOp]

theorem C2_witness :
    CapacityInv (applyRegOps seedStore [RegOp.reg "ai_workshop" "s1" "Alice"]) :=
  C2_capacity_invariant [RegOp.reg "ai_workshop" "s1" "Alice"]

theorem C3_witness :
    NoDupRegistration
      (applyRegOps seedStore
        [RegOp.reg "ai_workshop" "s1" "Alice",
         RegOp.reg "ai_workshop" "s1" "Alice"]) :=
  C3_no_duplicate_registration
    [RegOp.reg "ai_workshop" "s1" "Alice", RegOp.reg "ai_workshop" "s1" "Alice"]

/-! ### C4: duplicate check precedes capacity check -/

/-- C4: when the student is already registered, `register_for_event`
returns the already-registered domain failure with the store unchanged —
unconditionally, so in particular also when the event is at capacity;
the event-full failure is impossible on this path. -/
theorem C4_duplicate_check_first (s : Store) (eid sid nm : String) (ev : Event)
    (hget : dictGet s.events_db eid = some ev) (hmem : sid ∈ ev.participants) :
    register_for_event s eid sid nm =
      (.alreadyRegistered ("Student " ++ nm ++ " is already registered for " ++
        ev.name), s) := by
  unfold register_for_event
  rw [hget]
  simp [hmem]

theorem C4_witness :
    dictGet wStore.events_db "e1" = some wEventFull ∧
    "s1" ∈ wEventFull.participants ∧
    (wEventFull.participants.length : Int) ≥ wEventFull.max_participants ∧
    register_for_event wStore "e1" "s1" "Bob" =
      (.alreadyRegistered ("Student " ++ "Bob" ++ " is already registered for " ++
        wEventFull.name), wStore) :=
  ⟨rfl, by simp [wEventFull], by simp [wEventFull],
   C4_duplicate_check_first wStore "e1" "s1" "Bob" wEventFull rfl
     (by simp [wEventFull])⟩

/-! ### C5: capacity check precedes conflict scan -/

/-- C5: `book_venue` rejects an over-capacity request with the
capacity-exceeded domain failure and an unchanged store, regardless of
any `(date, time_slot)` conflict; when capacity passes and the conflict
scan finds matches, it returns the slot-booked failure carrying the
first conflicting booking, still with the store unchanged. -/
theorem C5_capacity_before_conflict (s : Store) (vid : String)
    (req : BookingRequest) (now : String) (v : Venue)
    (hget : dictGet s.venues_db vid = some v) :
    (req.expected_attendees > v.capacity →
      book_venue s vid req now =
        (.capacityExceeded ("Venue capacity (" ++ toString v.capacity ++
          ") is less than expected attendees (" ++
          toString req.expected_attendees ++ ")"), s)) ∧
    (req.expected_attendees ≤ v.capacity →
      ∀ first rest,
        v.bookings.filter
          (fun b => b.date == req.date && b.time_slot == req.time_slot) =
            first :: rest →
        book_venue s vid req now =
          (.slotBooked ("Venue " ++ v.name ++ " is already booked for " ++
            req.date ++ " at " ++ req.time_slot) first, s)) := by
  constructor
  · intro hcap
    unfold book_venue
    rw [hget]
    simp [hcap]
  · intro hle first rest hconf
    unfold book_venue
    rw [hget]
    simp only [if_neg (not_lt.mpr hle)]
    rw [hconf]

theorem C5_witness :
    (wReq70.expected_attendees > wVenue.capacity ∧
      book_venue wStore "v1" wReq70 "T1" =
        (.capacityExceeded ("Venue capacity (" ++ toString wVenue.capacity ++
          ") is less than expected attendees (" ++
          toString wReq70.expected_attendees ++ ")"), wStore)) ∧
    (wReq5.expected_attendees ≤ wVenue.capacity ∧
      wVenue.bookings.filter
        (fun b => b.date == wReq5.date && b.time_slot == wReq5.time_slot) =
          wBooking :: [] ∧
      book_venue wStore "v1" wReq5 "T1" =
        (.slotBooked ("Venue " ++ wVenue.name ++ " is already booked for " ++
          wReq5.date ++ " at " ++ wReq5.time_slot) wBooking, wStore)) :=
  ⟨⟨by decide,
    (C5_capacity_before_conflict wStore "v1" wReq70 "T1" wVenue rfl).1 (by decide)⟩,
   ⟨by decide, by decide,
    (C5_capacity_before_conflict wStore "v1" wReq5 "T1" wVenue rfl).2 (by decide)
      wBooking [] (by decide)⟩⟩

/-! ### C6: availability query -/

/-- C6 counterexample: the claim fails for the given time slot `""`.
Python's `if time_slot:` is a truthiness test, so an empty slot string
is treated like an absent one and `check_venue_availability` takes the
whole-date branch (a `dateInfo` payload with no `available` flag)
instead of answering the slot query as the claim asserts for every
given `timeSlot`. -/
theorem C6_counterexample :
    ¬ SlotQueryAnswered wStore "v1" "2024-04-20" "" wVenue := by
  unfold SlotQueryAnswered
  decide

/-- C6 amended: with a given *non-empty* `time_slot`,
`check_venue_availability` returns the bookings of the venue matching
`(date, time_slot)`, reports `available = true` exactly when there is
no such booking, and leaves the store unchanged; a given empty-string
`time_slot` is falsy in Python and takes the whole-date branch
instead. -/
theorem C6_check_availability (s : Store) (vid d ts : String) (v : Venue)
    (hget : dictGet s.venues_db vid = some v) (hts : ts ≠ "") :
    check_venue_availability s vid d (some ts) =
      (.slotInfo vid v.name d ts
        ((v.bookings.filter (fun b => b.date == d && b.time_slot == ts)).length == 0)
        (v.bookings.filter (fun b => b.date == d && b.time_slot == ts)), s) ∧
    (((v.bookings.filter (fun b => b.date == d && b.time_slot == ts)).length == 0)
        = true ↔
      ∀ b ∈ v.bookings, ¬(b.date = d ∧ b.time_slot = ts)) := by
  have hff : (v.bookings.filter (fun b => b.date == d)).filter
      (fun b => b.time_slot == ts)
      = v.bookings.filter (fun b => b.date == d && b.time_slot == ts) := by
    rw [List.filter_filter]
    exact List.filter_congr (fun b _ => Bool.and_comm _ _)
  constructor
  · unfold check_venue_availability
    rw [hget]
    simp only [if_neg hts, hff]
  · rw [beq_iff_eq, List.length_eq_zero, List.filter_eq_nil_iff]
    constructor
    · intro h b hb hcontr
      exact absurd (by simp [hcontr.1, hcontr.2]) (h b hb)
    · intro h b hb
      simp only [Bool.and_eq_true, beq_iff_eq]
      intro hcontr
      exact h b hb hcontr

theorem C6_witness :
    dictGet wStore.venues_db "v1" = some wVenue ∧
    "09:00-10:00" ≠ "" ∧
    check_venue_availability wStore "v1" "2024-04-20" (some "09:00-10:00") =
      (.slotInfo "v1" "Hall One" "2024-04-20" "09:00-10:00" false [wBooking],
        wStore) :=
  ⟨rfl, by decide,
   (C6_check_availability wStore "v1" "2024-04-20" "09:00-10:00" wVenue rfl
      (by decide)).1⟩

/-! ### C7: domain failures leave the store unchanged -/

/-- C7: whenever `register_for_event`, `unregister_from_event`,
`book_venue` or `send_notification` returns a domain failure
(`success: False`), the returned store — events, venues and the
notification ledger — is exactly the input store. -/
theorem C7_domain_failure_unchanged (s : Store) :
    (∀ eid sid nm, (register_for_event s eid sid nm).1.isDomainFailure = true →
      (register_for_event s eid sid nm).2 = s) ∧
    (∀ eid sid, (unregister_from_event s eid sid).1.isDomainFailure = true →
      (unregister_from_event s eid sid).2 = s) ∧
    (∀ vid req now, (book_venue s vid req now).1.isDomainFailure = true →
      (book_venue s vid req now).2 = s) ∧
    (∀ n now, (send_notification s n now).1.isDomainFailure = true →
      (send_notification s n now).2 = s) := by
  refine ⟨?_, ?_, ?_, ?_⟩
  · intro eid sid nm
    unfold register_for_event
    cases dictGet s.events_db eid with
    | none => intro _; rfl
    | some event =>
        simp only
        by_cases hdup : sid ∈ event.participants
        · simp [hdup]
        · by_cases hfull : (event.participants.length : Int) ≥ event.max_participants
          · simp [hdup, hfull]
          · simp [hdup, hfull, RegisterOutcome.isDomainFailure]
  · intro eid sid
    unfold unregister_from_event
    cases dictGet s.events_db eid with
    | none => intro _; rfl
    | some event =>
        simp only
        by_cases hmem' : sid ∈ event.participants
        · simp [hmem', UnregisterOutcome.isDomainFailure]
        · simp [hmem']
  · intro vid req now
    unfold book_venue
    cases dictGet s.venues_db vid with
    | none => intro _; rfl
    | some venue =>
        simp only
        by_cases hcap : req.expected_attendees > venue.capacity
        · simp [hcap]
        · simp only [if_neg hcap]
          cases venue.bookings.filter
              (fun b => b.date == req.date && b.time_slot == req.time_slot) with
          | cons first rest => intro _; rfl
          | nil => simp [BookOutcome.isDomainFailure]
  · intro n now
    unfold send_notification
    simp only
    by_cases h1 : n.recipient_type = "all_participants"
    · simp only [if_pos h1]
      cases dictGet s.events_db n.event_id with
      | none => intro _; rfl
      | some event =>
          simp only
          by_cases hemp : event.participants.isEmpty
          · simp [hemp]
          · simp [hemp, SendOutcome.isDomainFailure]
    · simp only [if_neg h1]
      by_cases h2 : n.recipient_type = "specific_students"
      · simp only [if_pos h2]
        by_cases hfalsy : recipientIdsFalsy n.recipient_ids
        · simp [hfalsy]
        · simp only [if_neg hfalsy]
          by_cases hemp : (n.recipient_ids.getD []).isEmpty
          · simp [hemp]
          · simp [hemp, SendOutcome.isDomainFailure]
      · simp only [if_neg h2]
        by_cases h3 : n.recipient_type = "all_students"
        · simp [h3, SendOutcome.isDomainFailure]
        · simp [h3]

theorem C7_witness :
    ((register_for_event wStore "e1" "s1" "Bob").1.isDomainFailure = true ∧
      (register_for_event wStore "e1" "s1" "Bob").2 = wStore) ∧
    ((unregister_from_event wStore "e1" "s2").1.isDomainFailure = true ∧
      (unregister_from_event wStore "e1" "s2").2 = wStore) ∧
    ((book_venue wStore "v1" wReq70 "T1").1.isDomainFailure = true ∧
      (book_venue wStore "v1" wReq70 "T1").2 = wStore) ∧
    ((send_notification seedStore
        { event_id := "ai_workshop", message := "hi",
          recipient_type := "all_participants", recipient_ids := none }
        "T2").1.isDomainFailure = true ∧
      (send_notification seedStore
        { event_id := "ai_workshop", message := "hi",
          recipient_type := "all_participants", recipient_ids := none }
        "T2").2 = seedStore) :=
  ⟨⟨by decide, (C7_domain_failure_unchanged wStore).1 "e1" "s1" "Bob" (by decide)⟩,
   ⟨by decide, (C7_domain_failure_unchanged wStore).2.1 "e1" "s2" (by decide)⟩,
   ⟨by decide, (C7_domain_failure_unchanged wStore).2.2.1 "v1" wReq70 "T1" (by decide)⟩,
   ⟨by decide, (C7_domain_failure_unchanged seedStore).2.2.2
      { event_id := "ai_workshop", message := "hi",
        recipient_type := "all_participants", recipient_ids := none }
      "T2" (by decide)⟩⟩

/-! ### Evaluation lemmas for `send_notification` -/

theorem send_specific_invalid (s : Store) (eid msg now : String)
    (rids : Option (List String)) (h : recipientIdsFalsy rids = true) :
    send_notification s
        { event_id := eid, message := msg,
          recipient_type := "specific_students", recipient_ids := rids } now =
      (.invalidArgument "recipient_ids required for specific_students", s) := by
  unfold send_notification
  simp [h]

theorem send_specific_nonempty (s : Store) (eid msg now : String)
    (rids : Option (List String)) (hd : String) (tl : List String)
    (h : rids = some (hd :: tl)) :
    send_notification s
        { event_id := eid, message := msg,
          recipient_type := "specific_students", recipient_ids := rids } now =
      (.sent ("Notification sent to " ++ toString (hd :: tl).length ++
          " recipients") (hd :: tl).length,
       { s with notifications_log := s.notifications_log ++
          [{ timestamp := now, event_id := eid, message := msg,
             recipient_type := "specific_students",
             recipient_count := (hd :: tl).length,
             recipients := hd :: tl }] }) := by
  subst h
  unfold send_notification
  simp [recipientIdsFalsy]

theorem send_all_students_eq (s : Store) (eid msg now : String)
    (rids : Option (List String)) :
    send_notification s
        { event_id := eid, message := msg,
          recipient_type := "all_students", recipient_ids := rids } now =
      (.sent ("Notification sent to " ++ toString (1 : Nat) ++ " recipients") 1,
       { s with notifications_log := s.notifications_log ++
          [{ timestamp := now, event_id := eid, message := msg,
             recipient_type := "all_students",
             recipient_count := 1,
             recipients := ["all_students_broadcast"] }] }) := by
  unfold send_notification
  simp

theorem send_all_participants_notFound (s : Store) (eid msg now : String)
    (rids : Option (List String)) (hnone : dictGet s.events_db eid = none) :
    send_notification s
        { event_id := eid, message := msg,
          recipient_type := "all_participants", recipient_ids := rids } now =
      (.notFound ("Event " ++ eid ++ " not found"), s) := by
  unfold send_notification
  simp [hnone]

/-! ### C8: specific_students validation and verbatim recipients -/

/-- C8: with `recipient_type = "specific_students"`, an absent or empty
`recipient_ids` is rejected with `InvalidArgument` (a 400, not a domain
failure) and the ledger is untouched; a non-empty `recipient_ids` is
stored verbatim — no de-duplication — in the appended record. -/
theorem C8_specific_students_validation (s : Store) (eid msg now : String)
    (rids : Option (List String)) :
    (recipientIdsFalsy rids = true →
      send_notification s
          { event_id := eid, message := msg,
            recipient_type := "specific_students", recipient_ids := rids } now =
        (.invalidArgument "recipient_ids required for specific_students", s)) ∧
    (∀ hd tl, rids = some (hd :: tl) →
      send_notification s
          { event_id := eid, message := msg,
            recipient_type := "specific_students", recipient_ids := rids } now =
        (.sent ("Notification sent to " ++ toString (hd :: tl).length ++
            " recipients") (hd :: tl).length,
         { s with notifications_log := s.notifications_log ++
            [{ timestamp := now, event_id := eid, message := msg,
               recipient_type := "specific_students",
               recipient_count := (hd :: tl).length,
               recipients := hd :: tl }] })) :=
  ⟨send_specific_invalid s eid msg now rids,
   fun hd tl h => send_specific_nonempty s eid msg now rids hd tl h⟩

theorem C8_witness :
    (recipientIdsFalsy (some []) = true ∧
      send_notification wStore
          { event_id := "e1", message := "hi",
            recipient_type := "specific_students", recipient_ids := some [] } "T3" =
        (.invalidArgument "recipient_ids required for specific_students", wStore)) ∧
    (send_notification wStore
        { event_id := "e1", message := "hi",
          recipient_type := "specific_students",
          recipient_ids := some ["sA", "sA"] } "T3" =
      (.sent ("Notification sent to " ++ toString (["sA", "sA"] : List String).length ++
          " recipients") (["sA", "sA"] : List String).length,
       { wStore with notifications_log := wStore.notifications_log ++
          [{ timestamp := "T3", event_id := "e1", message := "hi",
             recipient_type := "specific_students",
             recipient_count := (["sA", "sA"] : List String).length,
             recipients := ["sA", "sA"] }] })) :=
  ⟨⟨by decide,
    (C8_specific_students_validation wStore "e1" "hi" "T3" (some [])).1 (by decide)⟩,
   (C8_specific_students_validation wStore "e1" "hi" "T3"
      (some ["sA", "sA"])).2 "sA" ["sA"] rfl⟩

/-! ### C10: event existence is only checked for all_participants -/

/-- C10: `send_notification` consults the events dictionary only in the
`all_participants` branch: when `event_id` names no event, the
`all_participants` call is rejected with 404, while `specific_students`
(with non-empty ids) and `all_students` succeed and append a ledger
record that references the nonexistent event. -/
theorem C10_event_check_only_participants (s : Store) (eid msg now : String)
    (rids : Option (List String)) (hnone : dictGet s.events_db eid = none) :
    (send_notification s
        { event_id := eid, message := msg,
          recipient_type := "all_participants", recipient_ids := rids } now =
      (.notFound ("Event " ++ eid ++ " not found"), s)) ∧
    (∀ hd tl, rids = some (hd :: tl) →
      send_notification s
          { event_id := eid, message := msg,
            recipient_type := "specific_students", recipient_ids := rids } now =
        (.sent ("Notification sent to " ++ toString (hd :: tl).length ++
            " recipients") (hd :: tl).length,
         { s with notifications_log := s.notifications_log ++
            [{ timestamp := now, event_id := eid, message := msg,
               recipient_type := "specific_students",
               recipient_count := (hd :: tl).length,
               recipients := hd :: tl }] })) ∧
    (send_notification s
        { event_id := eid, message := msg,
          recipient_type := "all_students", recipient_ids := rids } now =
      (.sent ("Notification sent to " ++ toString (1 : Nat) ++ " recipients") 1,
       { s with notifications_log := s.notifications_log ++
          [{ timestamp := now, event_id := eid, message := msg,
             recipient_type := "all_students",
             recipient_count := 1,
             recipients := ["all_students_broadcast"] }] })) :=
  ⟨send_all_participants_notFound s eid msg now rids hnone,
   fun hd tl h => send_specific_nonempty s eid msg now rids hd tl h,
   send_all_students_eq s eid msg now rids⟩

theorem C10_witness :
    dictGet wStore.events_db "ghost_event" = none ∧
    send_notification wStore
        { event_id := "ghost_event", message := "hi",
          recipient_type := "all_participants", recipient_ids := some ["sX"] } "T4" =
      (.notFound ("Event " ++ "ghost_event" ++ " not found"), wStore) ∧
    send_notification wStore
        { event_id := "ghost_event", message := "hi",
          recipient_type := "specific_students", recipient_ids := some ["sX"] } "T4" =
      (.sent ("Notification sent to " ++ toString (["sX"] : List String).length ++
          " recipients") (["sX"] : List String).length,
       { wStore with notifications_log := wStore.notifications_log ++
          [{ timestamp := "T4", event_id := "ghost_event", message := "hi",
             recipient_type := "specific_students",
             recipient_count := (["sX"] : List String).length,
             recipients := ["sX"] }] }) ∧
    send_notification wStore
        { event_id := "ghost_event", message := "hi",
          recipient_type := "all_students", recipient_ids := some ["sX"] } "T4" =
      (.sent ("Notification sent to " ++ toString (1 : Nat) ++ " recipients") 1,
       { wStore with notifications_log := wStore.notifications_log ++
          [{ timestamp := "T4", event_id := "ghost_event", message := "hi",
             recipient_type := "all_students",
             recipient_count := 1,
             recipients := ["all_students_broadcast"] }] }) :=
  ⟨rfl,
   (C10_event_check_only_participants wStore "ghost_event" "hi" "T4"
      (some ["sX"]) rfl).1,
   (C10_event_check_only_participants wStore "ghost_event" "hi" "T4"
      (some ["sX"]) rfl).2.1 "sX" [] rfl,
   (C10_event_check_only_participants wStore "ghost_event" "hi" "T4"
      (some ["sX"]) rfl).2.2⟩

/-! ### C9: stored bookings versus the venue capacity -/

theorem map_dictSet_eq {α β : Type} (f : α → β) (db : List (String × α))
    (k : String) (v v' : α) (hget : dictGet db k = some v) (hf : f v' = f v) :
    (dictSet db k v').map (fun p => (p.1, f p.2)) =
      db.map (fun p => (p.1, f p.2)) := by
  induction db with
  | nil => simp [dictGet] at hget
  | cons hd tl ih =>
      obtain ⟨k', v''⟩ := hd
      by_cases hk : k' = k
      · subst hk
        simp [dictGet] at hget
        subst hget
        simp [dictSet, hf]
      · simp only [dictGet, if_neg hk] at hget
        simp [dictSet, hk, ih hget]

theorem book_venue_capMap (s : Store) (vid : String) (req : BookingRequest)
    (now : String) : capMap (book_venue s vid req now).2 = capMap s := by
  unfold book_venue
  cases hget : dictGet s.venues_db vid with
  | none => rfl
  | some venue =>
      simp only
      by_cases hcap : req.expected_attendees > venue.capacity
      · simp [hcap]
      · simp only [if_neg hcap]
        cases venue.bookings.filter
            (fun b => b.date == req.date && b.time_slot == req.time_slot) with
        | cons first rest => rfl
        | nil =>
            unfold capMap
            exact map_dictSet_eq Venue.capacity s.venues_db vid venue _ hget rfl

theorem book_venue_preserves_leCap {s : Store} (h : BookingLeCap s)
    (vid : String) (req : BookingRequest) (now : String) :
    BookingLeCap (book_venue s vid req now).2 := by
  unfold book_venue
  cases hget : dictGet s.venues_db vid with
  | none => exact h
  | some venue =>
      simp only
      by_cases hcap : req.expected_attendees > venue.capacity
      · simp only [if_pos hcap]; exact h
      · simp only [if_neg hcap]
        cases venue.bookings.filter
            (fun b => b.date == req.date && b.time_slot == req.time_slot) with
        | cons first rest => exact h
        | nil =>
            intro p hp b hb
            rcases mem_dictSet hp with hmem | heq
            · exact h p hmem b hb
            · subst heq
              simp only [List.mem_append, List.mem_singleton] at hb
              rcases hb with hb | hb
              · exact h _ (dictGet_mem hget) b hb
              · subst hb
                exact not_lt.mp hcap

theorem applyBooks_capMap :
    ∀ (ops : List BookOp) (s : Store), capMap (applyBooks s ops) = capMap s
  | [], _ => rfl
  | op :: rest, s => by
      rw [applyBooks, applyBooks_capMap rest, book_venue_capMap]

theorem applyBooks_preserves_leCap :
    ∀ (ops : List BookOp) (s : Store), BookingLeCap s →
      BookingLeCap (applyBooks s ops)
  | [], _, h => h
  | op :: rest, _, h =>
      applyBooks_preserves_leCap rest _
        (book_venue_preserves_leCap h op.venue_id op.request op.now)

theorem seedStore_leCap : BookingLeCap seedStore := by
  intro p hp
  unfold seedStore seedVenues at hp
  simp only [List.mem_cons, List.not_mem_nil, or_false] at hp
  rcases hp with h | h | h | h | h | h <;> subst h <;> simp

/-- C9 counterexample: the claim that every stored booking has a
*positive* `expected_attendees` is false — `book_venue` only rejects
`expected_attendees > capacity`, so the reachable state after a single
booking request with `expected_attendees = 0` stores a non-positive
booking. -/
theorem C9_counterexample :
    ¬ (∀ ops : List BookOp, BookingPosLeCap (applyBooks seedStore ops)) := by
  intro hall
  have h := hall [zeroAttendeesOp]
  unfold BookingPosLeCap at h
  exact absurd h (by decide)

/-- C9 amended: every stored booking's `expected_attendees` is at most
the owning venue's capacity, and no sequence of `book_venue` calls ever
changes any venue's capacity (so the bound also holds for the capacity
at the time the booking was created); positivity of
`expected_attendees` is not enforced by the code. -/
theorem C9_bookings_le_capacity (ops : List BookOp) :
    BookingLeCap (applyBooks seedStore ops) ∧
    capMap (applyBooks seedStore ops) = capMap seedStore :=
  ⟨applyBooks_preserves_leCap ops seedStore seedStore_leCap,
   applyBooks_capMap ops seedStore⟩

theorem C9_witness :
    BookingLeCap (applyBooks seedStore [zeroAttendeesOp]) ∧
    capMap (applyBooks seedStore [zeroAttendeesOp]) = capMap seedStore :=
  C9_bookings_le_capacity [zeroAttendeesOp]

end CampusBackend
